import Mathlib

/-!
Shallow embedding of the skid-homework core: the provider registry
(`useAiStore` in the source), the IndexedDB-backed `DatabaseManager`, and
the `useProblemsStore` state container, together with theorems checking
the specification's claims against these definitions.
-/

namespace SkidHomework

/-- JS truthiness of a `string | null` value: both `null` and the empty
string are falsy, every non-empty string is truthy. -/
def truthyKey : Option String → Bool
  | none => false
  | some s => !s.isEmpty

/-- The `AiProvider` union type. -/
inductive AiProvider
  | gemini
  | openai
deriving DecidableEq

/-- The `AiSource` record: one external-service source configuration. -/
structure AiSource where
  id : String
  name : String
  provider : AiProvider
  apiKey : Option String
  baseUrl : Option String
  model : String
  traits : Option String
  thinkingBudget : Option Nat
  enabled : Bool
  pollIntervalMs : Option Nat
  maxPollMs : Option Nat
deriving DecidableEq

/-- The persisted part of the `AiStore` zustand state: the source list and
the active source id. -/
structure AiStoreState where
  sources : List AiSource
  activeSourceId : String
deriving DecidableEq

/-- A constructed client adapter, recording which constructor
(`GeminiAi` or `OpenAiClient`) ran and with which arguments. -/
inductive AiClient
  | geminiClient (apiKey : String) (baseUrl : Option String)
      (thinkingBudget : Option Nat)
  | openaiClient (apiKey : String) (baseUrl : Option String)
      (pollIntervalMs : Option Nat) (maxPollMs : Option Nat)
deriving DecidableEq

/-- `createClientForSource`: returns `null` when the source has no truthy
api key, otherwise dispatches on the provider tag. -/
def createClientForSource (s : AiSource) : Option AiClient :=
  match s.apiKey with
  | none => none
  | some key =>
    if key.isEmpty then none
    else
      match s.provider with
      | .gemini => some (.geminiClient key s.baseUrl s.thinkingBudget)
      | .openai => some (.openaiClient key s.baseUrl s.pollIntervalMs s.maxPollMs)

/-- The filter predicate `source.enabled && source.apiKey` used by
`getEnabledSources` and `getActiveSource`. -/
def enabledAndKeyed (s : AiSource) : Bool :=
  s.enabled && truthyKey s.apiKey

/-- `getEnabledSources`: the sources that are enabled and have a truthy
api key. -/
def getEnabledSources (st : AiStoreState) : List AiSource :=
  st.sources.filter enabledAndKeyed

/-- `getActiveSource`. The random index `Math.floor(Math.random() * enabled.length)`
is supplied as the parameter `pick`; at runtime it always satisfies
`pick < enabled.length`, and an out-of-range `pick` yields `none` exactly as an
out-of-range JS array read yields `undefined`. When the filtered list is empty
the source returns `state.sources[0] ?? null`. -/
def getActiveSource (st : AiStoreState) (pick : Nat) : Option AiSource :=
  let enabled := getEnabledSources st
  if enabled.length > 0 then enabled.get? pick
  else st.sources.head?

/-- The no-id branch of `getClientForSource`: filtered sources if any,
otherwise the full unfiltered list; `null` when that fallback list is empty;
otherwise build a client for the randomly indexed entry. -/
def getClientForSourceRandom (st : AiStoreState) (pick : Nat) : Option AiClient :=
  let enabled := getEnabledSources st
  let fallbackSources := if enabled.length > 0 then enabled else st.sources
  if fallbackSources.length = 0 then none
  else
    match fallbackSources.get? pick with
    | some chosen => createClientForSource chosen
    | none => none

/-- `getClientForSource(id?)`: with a truthy id, resolve that exact source
(or `null` if absent); otherwise take the random branch. -/
def getClientForSource (st : AiStoreState) (pick : Nat) (id : Option String) :
    Option AiClient :=
  if truthyKey id then
    match st.sources.find? (fun entry => entry.id = id.getD "") with
    | some explicitSource => createClientForSource explicitSource
    | none => none
  else getClientForSourceRandom st pick

/-- `removeSource(id)`: drop the source and, when it was active, reassign the
active pointer to the first remaining enabled source, else the first remaining
source, else the hard-coded `"gemini-default"`. -/
def removeSource (st : AiStoreState) (id : String) : AiStoreState :=
  let nextSources := st.sources.filter (fun s => s.id ≠ id)
  let nextActive :=
    if st.activeSourceId = id then
      match nextSources.find? (fun s => s.enabled) with
      | some s => s.id
      | none =>
        match nextSources.head? with
        | some s => s.id
        | none => "gemini-default"
    else st.activeSourceId
  { sources := nextSources, activeSourceId := nextActive }

/-- `setActiveSource(id)`: set the active pointer only when a source with
that id exists, otherwise return the state unchanged. -/
def setActiveSource (st : AiStoreState) (id : String) : AiStoreState :=
  if st.sources.any (fun s => s.id = id) then
    { st with activeSourceId := id }
  else st

/-- A JS `File` object: the fields the code reads (`name`, `lastModified`)
plus its binary content, kept opaque as a string of bytes. -/
structure JsFile where
  name : String
  lastModified : Nat
  content : String
deriving DecidableEq

/-- The `source` field of a `FileItem`. -/
inductive FileSource
  | upload
  | camera
deriving DecidableEq

/-- The `status` field of a `FileItem`. -/
inductive FileStatus
  | success
  | pending
  | failed
deriving DecidableEq

/-- The in-memory `FileItem` record of the problems store. -/
structure FileItem where
  id : String
  file : JsFile
  mimeType : String
  url : String
  source : FileSource
  status : FileStatus
  streamingText : Option String
  isStreaming : Option Bool
deriving DecidableEq

/-- The `PersistedFileItem` shape written to the `fileItems` collection. -/
structure PersistedFileItem where
  id : String
  fileBlob : String
  mimeType : String
  source : FileSource
  status : FileStatus
  fileName : String
  lastModified : Nat
deriving DecidableEq

/-- The conversion `saveFileItem` applies before writing. -/
def toPersisted (item : FileItem) : PersistedFileItem :=
  { id := item.id
    fileBlob := item.file.content
    mimeType := item.mimeType
    source := item.source
    status := item.status
    fileName := item.file.name
    lastModified := item.file.lastModified }

/-- A `ProblemSolution` record. The `problem` field is `Option` because a JS
object built by spreading an array hole (`{...undefined, answer, explanation}`)
carries no `problem` property. -/
structure ProblemSolution where
  problem : Option String
  answer : String
  explanation : String
deriving DecidableEq

/-- A `Solution` record (one SolutionSet). An element `none` of `problems`
models a JS array hole, as produced by writing past the end of the array. -/
structure Solution where
  fileItemId : String
  success : Bool
  problems : List (Option ProblemSolution)
deriving DecidableEq

/-- The persisted `AppState` record. -/
structure AppState where
  selectedImage : Option String
  selectedProblem : Int
deriving DecidableEq

/-! ### DatabaseManager: clearAll -/

/-- Contents of the three object stores of an open `SkidHomeworkDB`. -/
structure DBState where
  fileItems : List PersistedFileItem
  solutions : List Solution
  appState : List AppState
deriving DecidableEq

/-- `DatabaseManager.clearAll`. The three `clear` requests — one per store,
with `okFileItems`, `okSolutions`, `okAppState` giving each request's host
outcome — all run inside a single `readwrite` IndexedDB transaction over the
three stores. The promise resolves only once all three success events have
fired (`completed === total`), and then the transaction commits with every
store emptied. On any request error the executor rejects with that request's
message, and since no error handler calls `preventDefault`, the transaction
aborts and rolls back the clears already applied: the stores keep their
prior contents. -/
def clearAll (db : DBState) (okFileItems okSolutions okAppState : Bool) :
    Except String Unit × DBState :=
  if okFileItems && okSolutions && okAppState then
    (.ok (), { fileItems := [], solutions := [], appState := [] })
  else
    (.error
      (if !okFileItems then "Failed to clear file items"
       else if !okSolutions then "Failed to clear solutions"
       else "Failed to clear app state"),
     db)

/-! ### DatabaseManager: initDB and the version-2 upgrade -/

/-- Store name constant `STORES.FILE_ITEMS`. -/
def FILE_ITEMS : String := "fileItems"

/-- Store name constant `STORES.SOLUTIONS`. -/
def SOLUTIONS : String := "solutions"

/-- Store name constant `STORES.APP_STATE`. -/
def APP_STATE : String := "appState"

/-- The schema version `DB_VERSION` requested by `initDB`. -/
def DB_VERSION : Nat := 2

/-- An IndexedDB database as the upgrade routine sees it: its version and its
object stores with their records, record contents kept generic. -/
structure MigDB (α : Type) where
  version : Nat
  stores : List (String × List α)

/-- `db.objectStoreNames.contains(name)`. -/
def containsStore (db : MigDB α) (n : String) : Bool :=
  db.stores.any (fun p => p.1 = n)

/-- `db.createObjectStore(name, ...)`: adds an empty store. -/
def createObjectStore (db : MigDB α) (n : String) : MigDB α :=
  { db with stores := db.stores ++ [(n, [])] }

/-- `db.deleteObjectStore(name)`: drops the store and its records. -/
def deleteObjectStore (db : MigDB α) (n : String) : MigDB α :=
  { db with stores := db.stores.filter (fun p => p.1 ≠ n) }

/-- Records of a named store, `none` when the store does not exist. -/
def getStore (db : MigDB α) (n : String) : Option (List α) :=
  (db.stores.find? (fun p => p.1 = n)).map Prod.snd

/-- First block of the `onupgradeneeded` handler: create the `fileItems`
store when absent. The `source` index it also creates is not modelled. -/
def upgradeFileItemsStep (db : MigDB α) : MigDB α :=
  if !containsStore db FILE_ITEMS then createObjectStore db FILE_ITEMS else db

/-- Second block of the handler: when upgrading from before version 2,
delete the old `solutions` store if present and recreate it empty with the
new `fileItemId` key path. -/
def upgradeSolutionsStep (db : MigDB α) (oldVersion : Nat) : MigDB α :=
  if oldVersion < 2 then
    createObjectStore
      (if containsStore db SOLUTIONS then deleteObjectStore db SOLUTIONS else db)
      SOLUTIONS
  else db

/-- Third block of the handler: create the `appState` store when absent. -/
def upgradeAppStateStep (db : MigDB α) : MigDB α :=
  if !containsStore db APP_STATE then createObjectStore db APP_STATE else db

/-- The `onupgradeneeded` handler of `initDB`, given `event.oldVersion`:
its three blocks run in order. -/
def onUpgradeNeeded (db : MigDB α) (oldVersion : Nat) : MigDB α :=
  upgradeAppStateStep (upgradeSolutionsStep (upgradeFileItemsStep db) oldVersion)

/-- `initDB`: `indexedDB.open(DB_NAME, DB_VERSION)` runs the upgrade handler
exactly when the stored version is below the requested one, passing the old
version, and bumps the version. -/
def initDB (db : MigDB α) : MigDB α :=
  if db.version < DB_VERSION then
    { onUpgradeNeeded db db.version with version := DB_VERSION }
  else db

/-! ### useProblemsStore: the state container and its mutation actions -/

/-- The in-memory snapshot of `useProblemsStore`. -/
structure ProblemsState where
  imageItems : List FileItem
  imageSolutions : List Solution
  selectedImage : Option String
  selectedProblem : Int
  isWorking : Bool
deriving DecidableEq

/-- A side effect issued by a mutation action towards `dbManager` or the
host `URL` object. -/
inductive Effect
  | saveFileItem (item : FileItem)
  | deleteFileItem (id : String)
  | saveSolution (s : Solution)
  | deleteSolution (fileItemId : String)
  | saveAppState (st : AppState)
  | revokeObjectURL (url : String)
  | dbClearAll
deriving DecidableEq

/-- `addFileItems`: append the batch to the snapshot and issue one mirror
save per item. -/
def addFileItems (st : ProblemsState) (newItems : List FileItem) :
    ProblemsState × List Effect :=
  ({ st with imageItems := st.imageItems ++ newItems },
    newItems.map (fun item => Effect.saveFileItem item))

/-- `updateItemStatus`: replace the matching item's status in the snapshot,
then re-read the item from the freshly committed snapshot and mirror-save
`{ ...item, status }` when found. -/
def updateItemStatus (st : ProblemsState) (id : String) (status : FileStatus) :
    ProblemsState × List Effect :=
  let st1 : ProblemsState :=
    { st with
      imageItems := st.imageItems.map (fun item =>
        if item.id = id then { item with status := status } else item) }
  match st1.imageItems.find? (fun i => i.id = id) with
  | some item => (st1, [Effect.saveFileItem { item with status := status }])
  | none => (st1, [])

/-- `removeImageItem`: filter the item out of the snapshot and issue a
mirror delete. No other effect is issued. -/
def removeImageItem (st : ProblemsState) (id : String) :
    ProblemsState × List Effect :=
  ({ st with imageItems := st.imageItems.filter (fun item => item.id ≠ id) },
    [Effect.deleteFileItem id])

/-- JS array read `problems[i]` for a possibly negative or out-of-range
index: `undefined` (here `none`) outside `[0, length)`. -/
def jsGetElem (l : List (Option ProblemSolution)) (i : Int) :
    Option ProblemSolution :=
  if 0 ≤ i then l.getD i.toNat none else none

/-- The object `{...updatedProblems[problemIndex], answer, explanation}`:
keeps the old `problem` property when the slot held an object, carries none
when the slot was a hole or out of range. -/
def spreadUpdate (old : Option ProblemSolution) (newAnswer newExplanation : String) :
    ProblemSolution :=
  { problem := old.bind ProblemSolution.problem
    answer := newAnswer
    explanation := newExplanation }

/-- JS array write `l[i] = v`: in range it replaces the element; at or past
the length it extends the array with holes up to index `i`; a negative index
creates a non-element property and leaves the elements unchanged. -/
def jsSetElem (l : List (Option ProblemSolution)) (i : Int) (v : ProblemSolution) :
    List (Option ProblemSolution) :=
  if i < 0 then l
  else if i.toNat < l.length then l.set i.toNat (some v)
  else l ++ List.replicate (i.toNat - l.length) none ++ [some v]

/-- The `set` callback of `updateProblem`: index-addressed write into the
addressed SolutionSet's `problems`, with no bounds check in the source. -/
def updateProblemState (st : ProblemsState) (fileItemId : String)
    (problemIndex : Int) (newAnswer newExplanation : String) : ProblemsState :=
  { st with
    imageSolutions := st.imageSolutions.map (fun solution =>
      if solution.fileItemId = fileItemId then
        { solution with
          problems := jsSetElem solution.problems problemIndex
            (spreadUpdate (jsGetElem solution.problems problemIndex)
              newAnswer newExplanation) }
      else solution) }

/-- `updateProblem`: apply the `set` callback, then re-read the solution from
the fresh snapshot and mirror-save it when found. -/
def updateProblem (st : ProblemsState) (fileItemId : String) (problemIndex : Int)
    (newAnswer newExplanation : String) : ProblemsState × List Effect :=
  let st1 := updateProblemState st fileItemId problemIndex newAnswer newExplanation
  match st1.imageSolutions.find? (fun s => s.fileItemId = fileItemId) with
  | some updatedSolution => (st1, [Effect.saveSolution updatedSolution])
  | none => (st1, [])

/-- `addSolution`: append to the snapshot inside the functional `set` and
mirror-save the new solution. -/
def addSolution (st : ProblemsState) (newSolution : Solution) :
    ProblemsState × List Effect :=
  ({ st with imageSolutions := st.imageSolutions ++ [newSolution] },
    [Effect.saveSolution newSolution])

/-- `setSelectedImage`: set the field, then mirror the full AppState pair
read back from the fresh snapshot. -/
def setSelectedImage (st : ProblemsState) (selectedImage : Option String) :
    ProblemsState × List Effect :=
  let st1 := { st with selectedImage := selectedImage }
  (st1,
    [Effect.saveAppState
      { selectedImage := selectedImage, selectedProblem := st1.selectedProblem }])

/-- `setSelectedProblem`: set the field (no clamping here), then mirror the
full AppState pair read back from the fresh snapshot. -/
def setSelectedProblem (st : ProblemsState) (selectedProblem : Int) :
    ProblemsState × List Effect :=
  let st1 := { st with selectedProblem := selectedProblem }
  (st1,
    [Effect.saveAppState
      { selectedImage := st1.selectedImage, selectedProblem := selectedProblem }])

/-- `clearAllWithDB`: revoke every item's object URL while the items are
still enumerable, await `dbManager.clearAll()` (outcome given by
`dbClearOk`), and reset the snapshot only when that clear succeeded; on
failure the catch block logs and the snapshot is left as it was. -/
def clearAllWithDB (st : ProblemsState) (dbClearOk : Bool) :
    ProblemsState × List Effect :=
  let effects :=
    st.imageItems.map (fun item => Effect.revokeObjectURL item.url) ++
      [Effect.dbClearAll]
  if dbClearOk then
    ({ imageItems := []
       imageSolutions := []
       selectedImage := none
       selectedProblem := 0
       isWorking := st.isWorking }, effects)
  else (st, effects)

/-! ### Mirror-write failure handling

Every mirror write in the listed mutation actions is issued as
`dbManager.X(...).catch((error) => console.error(...))`: a rejection of the
write promise is consumed by the attached handler and turned into a log
line, so it can never surface to the action's caller. `runMirrorWrites`
reproduces that wiring for an arbitrary per-effect outcome. -/

/-- One fire-and-forget mirror write with its `.catch` handler attached:
a rejection is consumed and logged, never re-raised. -/
def catchLog (outcome : Effect → Except String Unit) (siteMsg : String)
    (eff : Effect) : Except String Unit × List String :=
  match outcome eff with
  | .ok _ => (.ok (), [])
  | .error err => (.ok (), [siteMsg ++ " " ++ err])

/-- Issue every effect of an action as a caught mirror write and combine
the results: any surviving rejection would propagate, logs accumulate. -/
def runMirrorWrites (effects : List Effect) (outcome : Effect → Except String Unit)
    (siteMsg : String) : Except String Unit × List String :=
  match effects with
  | [] => (.ok (), [])
  | eff :: rest =>
    let r := catchLog outcome siteMsg eff
    let acc := runMirrorWrites rest outcome siteMsg
    match r.1, acc.1 with
    | .ok _, .ok _ => (.ok (), r.2 ++ acc.2)
    | .error e, _ => (.error e, r.2 ++ acc.2)
    | .ok _, .error e => (.error e, r.2 ++ acc.2)

/-- Run a mutation action's result under a persistence outcome: the caller
observes an error only if some mirror write's rejection survived its
handler, and otherwise gets the in-memory snapshot the action computed. -/
def runMutation (actionResult : ProblemsState × List Effect)
    (outcome : Effect → Except String Unit) (siteMsg : String) :
    Except String ProblemsState × List String :=
  let issued := runMirrorWrites actionResult.2 outcome siteMsg
  match issued.1 with
  | .ok _ => (.ok actionResult.1, issued.2)
  | .error e => (.error e, issued.2)

/-! ### SolutionViewer: the effective selected-problem index -/

/-- The `safeIndex` computation of `SolutionViewer`:
`Math.min(Math.max(0, selectedProblem), Math.max(0, problemCount - 1))`. -/
def safeIndex (selectedProblem : Int) (problemCount : Nat) : Int :=
  min (max 0 selectedProblem) (max 0 ((problemCount : Int) - 1))

/-- The `activeProblem` read of `SolutionViewer`: `null` when the addressed
SolutionSet has no problems, otherwise `problems[safeIndex]`. -/
def activeProblem (sol : Solution) (selectedProblem : Int) :
    Option ProblemSolution :=
  if sol.problems.length > 0 then
    sol.problems.getD (safeIndex selectedProblem sol.problems.length).toNat none
  else none

/-! ### Concrete sample data used by witnesses and counterexamples -/

/-- Sample source: enabled with a non-empty api key. -/
def srcEnabledKeyed : AiSource :=
  { id := "a", name := "Gemini", provider := .gemini, apiKey := some "k",
    baseUrl := none, model := "m", traits := none, thinkingBudget := some 8192,
    enabled := true, pollIntervalMs := none, maxPollMs := none }

/-- Sample source: keyed but disabled. -/
def srcDisabledKeyed : AiSource :=
  { id := "d", name := "Disabled", provider := .openai, apiKey := some "kd",
    baseUrl := none, model := "m2", traits := none, thinkingBudget := none,
    enabled := false, pollIntervalMs := some 1000, maxPollMs := some 30000 }

/-- Sample source: enabled but without an api key. -/
def srcNoKeyOne : AiSource :=
  { id := "nk1", name := "NoKey1", provider := .gemini, apiKey := none,
    baseUrl := none, model := "m", traits := none, thinkingBudget := none,
    enabled := true, pollIntervalMs := none, maxPollMs := none }

/-- Second enabled source without an api key, distinct from the first. -/
def srcNoKeyTwo : AiSource :=
  { id := "nk2", name := "NoKey2", provider := .openai, apiKey := none,
    baseUrl := none, model := "m", traits := none, thinkingBudget := none,
    enabled := true, pollIntervalMs := none, maxPollMs := none }

/-- A registry whose enabled-and-credentialed subset is empty while the
source list has two entries. -/
def c1FallbackState : AiStoreState :=
  { sources := [srcNoKeyOne, srcNoKeyTwo], activeSourceId := "nk1" }

/-- A registry with one disabled-but-keyed source and one enabled keyed
source. -/
def c1WitnessState : AiStoreState :=
  { sources := [srcDisabledKeyed, srcEnabledKeyed], activeSourceId := "a" }

/-- The claim's reading of the `getActiveSource` fallback: with the
enabled-and-credentialed subset empty, every source of the full unfiltered
list would be selectable for some draw of the random index. -/
def c1ClaimedUniformFallback (st : AiStoreState) : Prop :=
  ∀ i, i < st.sources.length → ∃ pick, getActiveSource st pick = st.sources.get? i

/-- A sample persisted file item. -/
def samplePersisted : PersistedFileItem :=
  { id := "a", fileBlob := "BYTES", mimeType := "image/png", source := .upload,
    status := .success, fileName := "a.png", lastModified := 0 }

/-- A sample problem solution. -/
def sampleProblem : ProblemSolution :=
  { problem := some "p1", answer := "a1", explanation := "e1" }

/-- A sample SolutionSet holding one problem. -/
def sampleSolution : Solution :=
  { fileItemId := "f", success := true, problems := [some sampleProblem] }

/-- A sample AppState record. -/
def sampleAppState : AppState := { selectedImage := none, selectedProblem := 0 }

/-- A database state with one record per collection. -/
def sampleDB : DBState :=
  { fileItems := [samplePersisted], solutions := [sampleSolution],
    appState := [sampleAppState] }

/-- A version-1 database holding records in all three stores, record
contents abstracted to numbers. -/
def sampleMigDB : MigDB Nat :=
  { version := 1,
    stores := [(FILE_ITEMS, [7]), (SOLUTIONS, [1, 2]), (APP_STATE, [5])] }

/-- A sample JS file. -/
def sampleFile : JsFile := { name := "a.png", lastModified := 0, content := "BYTES" }

/-- A sample in-memory file item owning the object URL `"blob:a"`. -/
def itemA : FileItem :=
  { id := "a", file := sampleFile, mimeType := "image/png", url := "blob:a",
    source := .upload, status := .success, streamingText := none,
    isStreaming := none }

/-- A snapshot holding exactly `itemA`. -/
def c4State : ProblemsState :=
  { imageItems := [itemA], imageSolutions := [], selectedImage := none,
    selectedProblem := 0, isWorking := false }

/-- A snapshot holding one SolutionSet with a single problem. -/
def c5State : ProblemsState :=
  { imageItems := [], imageSolutions := [sampleSolution], selectedImage := none,
    selectedProblem := 0, isWorking := false }

/-- Predicate picking out `URL.revokeObjectURL` effects. -/
def isRevokeEffect : Effect → Bool
  | .revokeObjectURL _ => true
  | _ => false

/-- First sample SolutionSet for the back-to-back append scenario. -/
def solOne : Solution := { fileItemId := "f1", success := true, problems := [] }

/-- Second sample SolutionSet, for a distinct file item id. -/
def solTwo : Solution := { fileItemId := "f2", success := false, problems := [] }

/-! ## Theorems -/

/-- Helper: with a falsy id, `getClientForSource` takes the random branch. -/
theorem getClientForSource_none_eq (st : AiStoreState) (pick : Nat) :
    getClientForSource st pick none = getClientForSourceRandom st pick := rfl

/-- Helper: with a non-empty enabled subset, the random branch indexes the
enabled subset and builds a client for the chosen entry. -/
theorem getClientForSourceRandom_of_pos (st : AiStoreState) (pick : Nat)
    (hpos : 0 < (getEnabledSources st).length) :
    getClientForSourceRandom st pick =
      ((getEnabledSources st).get? pick).bind createClientForSource := by
  simp only [getClientForSourceRandom, if_pos hpos]
  rw [if_neg (Nat.pos_iff_ne_zero.mp hpos)]
  cases hx : (getEnabledSources st).get? pick <;> simp [hx]

/-- Helper: with an empty enabled subset and a non-empty source list, the
random branch indexes the full unfiltered source list. -/
theorem getClientForSourceRandom_of_empty (st : AiStoreState) (pick : Nat)
    (h : getEnabledSources st = []) (hp : pick < st.sources.length) :
    getClientForSourceRandom st pick =
      (st.sources.get? pick).bind createClientForSource := by
  simp only [getClientForSourceRandom, h, List.length_nil, gt_iff_lt,
    Nat.lt_irrefl, if_false]
  rw [if_neg (Nat.pos_iff_ne_zero.mp (Nat.lt_of_le_of_lt (Nat.zero_le _) hp))]
  cases hx : st.sources.get? pick <;> simp [hx]

/-- C1 (counterexample): with the enabled-and-credentialed subset empty and
two sources in the registry, `getActiveSource` returns the first source for
every draw of the random index, so the second source is never selected; the
claimed uniformly-random fallback over the full unfiltered list is false. -/
theorem getActiveSource_fallback_not_uniform :
    ¬ c1ClaimedUniformFallback c1FallbackState := by
  intro h
  obtain ⟨pick, hp⟩ := h 1 (by decide)
  have hval : getActiveSource c1FallbackState pick = some srcNoKeyOne := rfl
  rw [hval] at hp
  have hsecond : c1FallbackState.sources.get? 1 = some srcNoKeyTwo := by decide
  rw [hsecond] at hp
  exact absurd (Option.some.inj hp) (by decide)

/-- C1 (amended): when the enabled-and-credentialed subset is non-empty,
`getActiveSource` and `getClientForSource` without an id select the subset
entry at the uniformly random index — every subset entry is reachable and a
disabled or uncredentialed source is never returned; when the subset is empty
`getClientForSource` falls back to the random index over the full unfiltered
list while `getActiveSource` returns the first source; on an empty registry
both return null. -/
theorem selection_policy (st : AiStoreState) (pick : Nat) :
    (pick < (getEnabledSources st).length →
      getActiveSource st pick = (getEnabledSources st).get? pick ∧
      getClientForSource st pick none =
        ((getEnabledSources st).get? pick).bind createClientForSource) ∧
    (∀ s, 0 < (getEnabledSources st).length →
      getActiveSource st pick = some s →
      s.enabled = true ∧ truthyKey s.apiKey = true) ∧
    (∀ i, i < (getEnabledSources st).length →
      ∃ p, getActiveSource st p = (getEnabledSources st).get? i) ∧
    (getEnabledSources st = [] → getActiveSource st pick = st.sources.head?) ∧
    (getEnabledSources st = [] → pick < st.sources.length →
      getClientForSource st pick none =
        (st.sources.get? pick).bind createClientForSource) ∧
    (st.sources = [] →
      getActiveSource st pick = none ∧ getClientForSource st pick none = none) := by
  refine ⟨?_, ?_, ?_, ?_, ?_, ?_⟩
  · intro hp
    have hpos : 0 < (getEnabledSources st).length := Nat.lt_of_le_of_lt (Nat.zero_le _) hp
    constructor
    · simp only [getActiveSource, if_pos hpos]
    · rw [getClientForSource_none_eq, getClientForSourceRandom_of_pos st pick hpos]
  · intro s hpos hs
    simp only [getActiveSource, if_pos hpos] at hs
    have hm : s ∈ getEnabledSources st := List.get?_mem hs
    have hf := (List.mem_filter.mp (by simpa [getEnabledSources] using hm)).2
    simpa [enabledAndKeyed, Bool.and_eq_true] using hf
  · intro i hi
    refine ⟨i, ?_⟩
    have hpos : 0 < (getEnabledSources st).length := Nat.lt_of_le_of_lt (Nat.zero_le _) hi
    simp only [getActiveSource, if_pos hpos]
  · intro h
    simp [getActiveSource, h]
  · intro h hp
    rw [getClientForSource_none_eq, getClientForSourceRandom_of_empty st pick h hp]
  · intro h
    have hen : getEnabledSources st = [] := by simp [getEnabledSources, h]
    constructor
    · simp [getActiveSource, hen, h]
    · rw [getClientForSource_none_eq]
      simp [getClientForSourceRandom, hen, h]

/-- C1 (witness): on a registry with one disabled keyed source and one
enabled keyed source, index 0 into the enabled subset selects the enabled
keyed source and builds its Gemini client. -/
theorem selection_policy_witness :
    getActiveSource c1WitnessState 0 = some srcEnabledKeyed ∧
    getClientForSource c1WitnessState 0 none =
      some (AiClient.geminiClient "k" none (some 8192)) := by
  have h := (selection_policy c1WitnessState 0).1 (by decide)
  constructor
  · rw [h.1]; decide
  · rw [h.2]; decide

/-- C8: `removeSource(id)` keeps exactly the sources with a different id;
when the removed source was not active the pointer is untouched; when it was
active the pointer goes to the first remaining enabled source, else the first
remaining source, else the hard-coded `"gemini-default"`. -/
theorem removeSource_reassigns_active (st : AiStoreState) (id : String) :
    ((removeSource st id).sources = st.sources.filter (fun s => s.id ≠ id)) ∧
    (st.activeSourceId ≠ id →
      (removeSource st id).activeSourceId = st.activeSourceId) ∧
    (st.activeSourceId = id →
      ∀ s, (st.sources.filter (fun s => s.id ≠ id)).find? (fun s => s.enabled) = some s →
        (removeSource st id).activeSourceId = s.id) ∧
    (st.activeSourceId = id →
      (st.sources.filter (fun s => s.id ≠ id)).find? (fun s => s.enabled) = none →
      ∀ s, (st.sources.filter (fun s => s.id ≠ id)).head? = some s →
        (removeSource st id).activeSourceId = s.id) ∧
    (st.activeSourceId = id → st.sources.filter (fun s => s.id ≠ id) = [] →
      (removeSource st id).activeSourceId = "gemini-default") := by
  refine ⟨rfl, ?_, ?_, ?_, ?_⟩
  · intro h
    simp only [removeSource]
    rw [if_neg h]
  · intro ha s hf
    simp only [removeSource]
    rw [if_pos ha, hf]
  · intro ha hf s hh
    simp only [removeSource]
    rw [if_pos ha, hf, hh]
  · intro ha hnil
    simp only [removeSource]
    rw [if_pos ha, hnil]
    rfl

/-- C8 (witness): removing the only source, which is active, empties the
registry and the active id falls back to the hard-coded default. -/
theorem removeSource_reassigns_active_witness :
    removeSource { sources := [srcEnabledKeyed], activeSourceId := "a" } "a" =
      { sources := [], activeSourceId := "gemini-default" } := by
  have h := removeSource_reassigns_active
    { sources := [srcEnabledKeyed], activeSourceId := "a" } "a"
  have h1 := h.1
  have h5 := h.2.2.2.2 (by decide) (by decide)
  have : removeSource { sources := [srcEnabledKeyed], activeSourceId := "a" } "a" =
      ⟨(removeSource { sources := [srcEnabledKeyed], activeSourceId := "a" } "a").sources,
       (removeSource { sources := [srcEnabledKeyed], activeSourceId := "a" } "a").activeSourceId⟩ := rfl
  rw [this, h1, h5]
  decide

/-- C10: `setActiveSource(id)` never changes the source list; when a source
with that id exists only the active pointer changes, to that id; when no
source has that id the whole state is returned unchanged. -/
theorem setActiveSource_frame_effect (st : AiStoreState) (id : String) :
    ((setActiveSource st id).sources = st.sources) ∧
    (st.sources.any (fun s => s.id = id) = true →
      (setActiveSource st id).activeSourceId = id) ∧
    (st.sources.any (fun s => s.id = id) = false →
      setActiveSource st id = st) := by
  refine ⟨?_, ?_, ?_⟩
  · by_cases h : st.sources.any (fun s => s.id = id) <;> simp [setActiveSource, h]
  · intro h; simp [setActiveSource, h]
  · intro h; simp [setActiveSource, h]

/-- C10 (witness): with an unknown id the state is unchanged, and with a
known id only the active pointer moves. -/
theorem setActiveSource_frame_effect_witness :
    setActiveSource { sources := [srcEnabledKeyed], activeSourceId := "zzz" } "zzz" =
      { sources := [srcEnabledKeyed], activeSourceId := "zzz" } ∧
    (setActiveSource { sources := [srcDisabledKeyed], activeSourceId := "x" } "d").activeSourceId = "d" := by
  constructor
  · exact (setActiveSource_frame_effect
      { sources := [srcEnabledKeyed], activeSourceId := "zzz" } "zzz").2.2 (by decide)
  · exact (setActiveSource_frame_effect
      { sources := [srcDisabledKeyed], activeSourceId := "x" } "d").2.1 (by decide)

/-- C2 (counterexample): with the solutions clear failing and the other two
clears succeeding, the overall operation rejects, but the file-items
collection is not left cleared: the aborted transaction rolls its clear
back, so the claimed independent, never-undone per-collection clears are
false of the program. -/
theorem clearAll_failure_rolls_back :
    (clearAll sampleDB true false true).1 =
      Except.error "Failed to clear solutions" ∧
    (clearAll sampleDB true false true).2.fileItems = sampleDB.fileItems ∧
    sampleDB.fileItems ≠ [] := by
  refine ⟨rfl, rfl, by decide⟩

/-- C2 (amended): `clearAll` clears the three collections by issuing one
clear request per collection inside a single atomic cross-collection
readwrite transaction; it completes only once all three clears have
individually succeeded, and then every collection is empty; a failure of
any one clear is surfaced as a rejection of the overall operation and, the
request error being unhandled, aborts the transaction, rolling back the
clears already applied — on failure every collection keeps its prior
records. -/
theorem clearAll_atomic_all_or_nothing (db : DBState) (okF okS okA : Bool) :
    ((clearAll db okF okS okA).1 = Except.ok () ↔ (okF && okS && okA) = true) ∧
    ((okF && okS && okA) = true →
      (clearAll db okF okS okA).2.fileItems = [] ∧
      (clearAll db okF okS okA).2.solutions = [] ∧
      (clearAll db okF okS okA).2.appState = []) ∧
    ((okF && okS && okA) = false →
      (∃ msg, (clearAll db okF okS okA).1 = Except.error msg) ∧
      (clearAll db okF okS okA).2 = db) := by
  cases okF <;> cases okS <;> cases okA <;> simp [clearAll]

/-- C2 (witness): with all three clears succeeding every collection comes
out empty and the operation resolves; with the solutions clear failing the
whole database state is left as it was. -/
theorem clearAll_atomic_all_or_nothing_witness :
    (clearAll sampleDB true true true).1 = Except.ok () ∧
    (clearAll sampleDB true true true).2.fileItems = [] ∧
    (clearAll sampleDB true false true).2 = sampleDB := by
  have h := clearAll_atomic_all_or_nothing sampleDB true true true
  have h' := clearAll_atomic_all_or_nothing sampleDB true false true
  exact ⟨h.1.mpr (by decide), (h.2.1 (by decide)).1, (h'.2.2 (by decide)).2⟩

/-- Helper: appending a store of a different name leaves a name lookup
unchanged. -/
theorem find?_append_other_name (l : List (String × List α)) (m n : String)
    (hd : List α) (hne : m ≠ n) :
    (l ++ [(m, hd)]).find? (fun p => p.1 = n) = l.find? (fun p => p.1 = n) := by
  rw [List.find?_append]
  cases hx : l.find? (fun p => p.1 = n) <;> simp [hx, List.find?, hne]

/-- Helper: appending a store of the looked-up name finds it when the name
was absent before. -/
theorem find?_append_same_name (l : List (String × List α)) (n : String)
    (hd : List α) (hmiss : l.find? (fun p => p.1 = n) = none) :
    (l ++ [(n, hd)]).find? (fun p => p.1 = n) = some (n, hd) := by
  rw [List.find?_append, hmiss]
  simp [List.find?]

/-- Helper: filtering away one name leaves lookups of a different name
unchanged. -/
theorem find?_filter_other_name (l : List (String × List α)) (n m : String)
    (hne : n ≠ m) :
    (l.filter (fun p => p.1 ≠ m)).find? (fun p => p.1 = n) =
      l.find? (fun p => p.1 = n) := by
  induction l with
  | nil => rfl
  | cons a l ih =>
    by_cases hm : a.1 = m
    · have hn : ¬ a.1 = n := fun hc => hne (hc ▸ hm)
      rw [List.filter_cons_of_neg (by simp [hm]), ih,
        List.find?_cons_of_neg l (by simp [hn])]
    · rw [List.filter_cons_of_pos (by simp [hm])]
      by_cases hn : a.1 = n
      · rw [List.find?_cons_of_pos _ (by simp [hn]),
          List.find?_cons_of_pos l (by simp [hn])]
      · rw [List.find?_cons_of_neg _ (by simp [hn]),
          List.find?_cons_of_neg l (by simp [hn]), ih]

/-- Helper: after filtering a name away, looking it up fails. -/
theorem find?_filter_self_none (l : List (String × List α)) (m : String) :
    (l.filter (fun p => p.1 ≠ m)).find? (fun p => p.1 = m) = none := by
  rw [List.find?_eq_none]
  intro x hx
  have := (List.mem_filter.mp hx).2
  simpa using this

/-- Helper: a store name that is not contained yields a failed lookup. -/
theorem find?_none_of_contains_false (db : MigDB α) (n : String)
    (h : containsStore db n = false) :
    db.stores.find? (fun p => p.1 = n) = none := by
  rw [List.find?_eq_none]
  intro x hx hpx
  have hany : db.stores.any (fun p => p.1 = n) = true :=
    List.any_eq_true.mpr ⟨x, hx, hpx⟩
  rw [containsStore] at h
  rw [hany] at h
  exact Bool.noConfusion h

/-- Helper: a contained store name yields a successful lookup. -/
theorem find?_some_of_contains (db : MigDB α) (n : String)
    (h : containsStore db n = true) :
    ∃ x, db.stores.find? (fun p => p.1 = n) = some x := by
  rw [containsStore] at h
  obtain ⟨x, hx, hpx⟩ := List.any_eq_true.mp h
  have : (db.stores.find? (fun p => p.1 = n)).isSome :=
    List.find?_isSome.mpr ⟨x, hx, hpx⟩
  exact Option.isSome_iff_exists.mp this

/-- Helper: the file-items block leaves lookups of other names unchanged. -/
theorem upgradeFileItemsStep_find_other (db : MigDB α) (n : String)
    (hn : n ≠ FILE_ITEMS) :
    (upgradeFileItemsStep db).stores.find? (fun p => p.1 = n) =
      db.stores.find? (fun p => p.1 = n) := by
  cases hc : containsStore db FILE_ITEMS
  · simp only [upgradeFileItemsStep, hc, Bool.not_false, if_pos]
    exact find?_append_other_name _ _ _ _ (Ne.symm hn)
  · simp [upgradeFileItemsStep, hc]

/-- Helper: after the file-items block a `fileItems` lookup returns the old
store when present and the fresh empty store otherwise. -/
theorem upgradeFileItemsStep_find_self (db : MigDB α) :
    (upgradeFileItemsStep db).stores.find? (fun p => p.1 = FILE_ITEMS) =
      (db.stores.find? (fun p => p.1 = FILE_ITEMS)).or (some (FILE_ITEMS, [])) := by
  cases hc : containsStore db FILE_ITEMS
  · have hmiss := find?_none_of_contains_false db FILE_ITEMS hc
    simp only [upgradeFileItemsStep, hc, Bool.not_false, if_pos]
    rw [show (createObjectStore db FILE_ITEMS).stores =
        db.stores ++ [(FILE_ITEMS, [])] from rfl]
    rw [find?_append_same_name _ _ _ hmiss, hmiss]
    rfl
  · obtain ⟨x, hx⟩ := find?_some_of_contains db FILE_ITEMS hc
    simp [upgradeFileItemsStep, hc, hx]

/-- Helper: the solutions block of a from-version-1 upgrade always ends with
an empty `solutions` store. -/
theorem upgradeSolutionsStep_find_self (db : MigDB α) :
    (upgradeSolutionsStep db 1).stores.find? (fun p => p.1 = SOLUTIONS) =
      some (SOLUTIONS, []) := by
  simp only [upgradeSolutionsStep, if_pos (by decide : (1 : Nat) < 2)]
  cases hc : containsStore db SOLUTIONS
  · simp only [hc, if_neg Bool.false_ne_true]
    exact find?_append_same_name _ _ _ (find?_none_of_contains_false db _ hc)
  · rw [if_pos rfl]
    rw [show (createObjectStore (deleteObjectStore db SOLUTIONS) SOLUTIONS).stores =
        (deleteObjectStore db SOLUTIONS).stores ++ [(SOLUTIONS, [])] from rfl]
    exact find?_append_same_name _ _ _ (find?_filter_self_none _ _)

/-- Helper: the solutions block leaves lookups of other names unchanged. -/
theorem upgradeSolutionsStep_find_other (db : MigDB α) (n : String)
    (hn : n ≠ SOLUTIONS) :
    (upgradeSolutionsStep db 1).stores.find? (fun p => p.1 = n) =
      db.stores.find? (fun p => p.1 = n) := by
  simp only [upgradeSolutionsStep, if_pos (by decide : (1 : Nat) < 2)]
  cases hc : containsStore db SOLUTIONS
  · simp only [hc, if_neg Bool.false_ne_true]
    exact find?_append_other_name _ _ _ _ (Ne.symm hn)
  · rw [if_pos rfl]
    rw [show (createObjectStore (deleteObjectStore db SOLUTIONS) SOLUTIONS).stores =
        (deleteObjectStore db SOLUTIONS).stores ++ [(SOLUTIONS, [])] from rfl]
    rw [find?_append_other_name _ _ _ _ (Ne.symm hn)]
    exact find?_filter_other_name _ _ _ hn

/-- Helper: the app-state block leaves lookups of other names unchanged. -/
theorem upgradeAppStateStep_find_other (db : MigDB α) (n : String)
    (hn : n ≠ APP_STATE) :
    (upgradeAppStateStep db).stores.find? (fun p => p.1 = n) =
      db.stores.find? (fun p => p.1 = n) := by
  cases hc : containsStore db APP_STATE
  · simp only [upgradeAppStateStep, hc, Bool.not_false, if_pos]
    exact find?_append_other_name _ _ _ _ (Ne.symm hn)
  · simp [upgradeAppStateStep, hc]

/-- Helper: after the app-state block an `appState` lookup returns the old
store when present and the fresh empty store otherwise. -/
theorem upgradeAppStateStep_find_self (db : MigDB α) :
    (upgradeAppStateStep db).stores.find? (fun p => p.1 = APP_STATE) =
      (db.stores.find? (fun p => p.1 = APP_STATE)).or (some (APP_STATE, [])) := by
  cases hc : containsStore db APP_STATE
  · have hmiss := find?_none_of_contains_false db APP_STATE hc
    simp only [upgradeAppStateStep, hc, Bool.not_false, if_pos]
    rw [show (createObjectStore db APP_STATE).stores =
        db.stores ++ [(APP_STATE, [])] from rfl]
    rw [find?_append_same_name _ _ _ hmiss, hmiss]
    rfl
  · obtain ⟨x, hx⟩ := find?_some_of_contains db APP_STATE hc
    simp [upgradeAppStateStep, hc, hx]

/-- C3: opening a version-1 database at schema version 2 runs the upgrade
once with the old version number: the `solutions` store is dropped and
recreated empty (its records are discarded), stores absent at the target
version are created empty, and the records of every other existing store
are untouched. -/
theorem initDB_migration_v1_to_v2 (db : MigDB α) (h : db.version = 1) :
    ((initDB db).version = 2) ∧
    (getStore (initDB db) SOLUTIONS = some []) ∧
    (∀ n, n ≠ SOLUTIONS → containsStore db n = true →
      getStore (initDB db) n = getStore db n) ∧
    (containsStore db FILE_ITEMS = false →
      getStore (initDB db) FILE_ITEMS = some []) ∧
    (containsStore db APP_STATE = false →
      getStore (initDB db) APP_STATE = some []) := by
  have hlt : db.version < DB_VERSION := by rw [h]; decide
  have hver : (initDB db).version = 2 := by
    simp only [initDB, if_pos hlt]
    rfl
  have hstores : (initDB db).stores = (onUpgradeNeeded db 1).stores := by
    simp only [initDB]
    rw [if_pos hlt, h]
  have hget : ∀ n, getStore (initDB db) n =
      ((onUpgradeNeeded db 1).stores.find? (fun p => p.1 = n)).map Prod.snd := by
    intro n
    rw [getStore, hstores]
  refine ⟨hver, ?_, ?_, ?_, ?_⟩
  · rw [hget, onUpgradeNeeded,
      upgradeAppStateStep_find_other _ _ (by decide),
      upgradeSolutionsStep_find_self]
    rfl
  · intro n hnS hc
    rw [hget, onUpgradeNeeded]
    by_cases hnA : n = APP_STATE
    · subst hnA
      rw [upgradeAppStateStep_find_self,
        upgradeSolutionsStep_find_other _ _ (by decide),
        upgradeFileItemsStep_find_other _ _ (by decide)]
      obtain ⟨x, hx⟩ := find?_some_of_contains db APP_STATE hc
      rw [hx]
      rw [getStore, hx]
      rfl
    · rw [upgradeAppStateStep_find_other _ _ hnA,
        upgradeSolutionsStep_find_other _ _ hnS]
      by_cases hnF : n = FILE_ITEMS
      · subst hnF
        rw [upgradeFileItemsStep_find_self]
        obtain ⟨x, hx⟩ := find?_some_of_contains db FILE_ITEMS hc
        rw [hx]
        rw [getStore, hx]
        rfl
      · rw [upgradeFileItemsStep_find_other _ _ hnF, getStore]
  · intro hc
    rw [hget, onUpgradeNeeded,
      upgradeAppStateStep_find_other _ _ (by decide),
      upgradeSolutionsStep_find_other _ _ (by decide),
      upgradeFileItemsStep_find_self,
      find?_none_of_contains_false db _ hc]
    rfl
  · intro hc
    rw [hget, onUpgradeNeeded,
      upgradeAppStateStep_find_self,
      upgradeSolutionsStep_find_other _ _ (by decide),
      upgradeFileItemsStep_find_other _ _ (by decide),
      find?_none_of_contains_false db _ hc]
    rfl

/-- C3 (witness): a version-1 database with records in all three stores
comes out of `initDB` at version 2 with `solutions` emptied and `fileItems`
and `appState` untouched. -/
theorem initDB_migration_witness :
    (initDB sampleMigDB).version = 2 ∧
    getStore (initDB sampleMigDB) SOLUTIONS = some [] ∧
    getStore (initDB sampleMigDB) FILE_ITEMS = some [7] ∧
    getStore (initDB sampleMigDB) APP_STATE = some [5] := by
  have h := initDB_migration_v1_to_v2 sampleMigDB (by rfl)
  refine ⟨h.1, h.2.1, ?_, ?_⟩
  · rw [h.2.2.1 FILE_ITEMS (by decide) (by decide)]
    decide
  · rw [h.2.2.1 APP_STATE (by decide) (by decide)]
    decide

/-- C4 (code-bug evaluation): removing the only item from the snapshot
removes it and issues the mirror delete, but issues no
`URL.revokeObjectURL` at all — the removed item's display handle is never
released by `removeImageItem` (a second remove also releases nothing),
while the bulk `clearAllWithDB` path does revoke it, one release per item. -/
theorem removeImageItem_leaks_object_url :
    (removeImageItem c4State "a").1.imageItems = [] ∧
    (removeImageItem c4State "a").2 = [Effect.deleteFileItem "a"] ∧
    (removeImageItem c4State "a").2.countP isRevokeEffect = 0 ∧
    (removeImageItem (removeImageItem c4State "a").1 "a").2.countP
      isRevokeEffect = 0 ∧
    (clearAllWithDB c4State true).2.countP isRevokeEffect = 1 ∧
    Effect.revokeObjectURL itemA.url ∈ (clearAllWithDB c4State true).2 := by
  refine ⟨rfl, rfl, rfl, rfl, rfl, ?_⟩
  decide

/-- C5 (counterexample): with a single-problem SolutionSet, calling
`updateProblem` with `problemIndex = 1` (out of range for length 1) is not
rejected and does not leave the problems sequence unchanged: a new entry is
created at index 1, carrying only the new answer and explanation and no
problem text. -/
theorem updateProblem_out_of_range_creates_entry :
    (updateProblem c5State "f" 1 "A" "E").1.imageSolutions =
      [{ fileItemId := "f", success := true,
         problems := [some sampleProblem,
           some { problem := none, answer := "A", explanation := "E" }] }] := by
  decide

/-- Helper: the snapshot part of `updateProblem` is the `set` callback's
result, whichever way the mirror-write lookup goes. -/
theorem updateProblem_fst (st : ProblemsState) (fid : String) (i : Int)
    (a e : String) :
    (updateProblem st fid i a e).1 = updateProblemState st fid i a e := by
  simp only [updateProblem]
  cases hf : (updateProblemState st fid i a e).imageSolutions.find?
      (fun s => s.fileItemId = fid) <;> rfl

/-- C5 (amended): `updateProblem` performs the index-addressed write without
validating `problemIndex` and never rejects: for the addressed SolutionSet an
in-range index replaces that entry in place (same length), a non-negative
out-of-range index creates an entry at that index, and a negative index
leaves the sequence unchanged; SolutionSets with other ids are untouched. -/
theorem updateProblem_no_validation (st : ProblemsState) (fid : String)
    (i : Int) (a e : String) (j : Nat) (sol : Solution)
    (hj : st.imageSolutions.get? j = some sol) :
    ∃ sol', (updateProblem st fid i a e).1.imageSolutions.get? j = some sol' ∧
      (sol.fileItemId ≠ fid → sol' = sol) ∧
      (sol.fileItemId = fid →
        sol'.fileItemId = sol.fileItemId ∧ sol'.success = sol.success ∧
        (i < 0 → sol'.problems = sol.problems) ∧
        (0 ≤ i → i.toNat < sol.problems.length →
          sol'.problems =
            sol.problems.set i.toNat
              (some (spreadUpdate (jsGetElem sol.problems i) a e)) ∧
          sol'.problems.length = sol.problems.length) ∧
        (0 ≤ i → sol.problems.length ≤ i.toNat →
          sol'.problems.length = i.toNat + 1 ∧
          sol'.problems.get? i.toNat = some (some (spreadUpdate none a e)))) := by
  rw [updateProblem_fst]
  simp only [updateProblemState]
  rw [List.get?_map _ _ j, hj]
  by_cases heq : sol.fileItemId = fid
  · have hmap : Option.map (fun solution =>
        if solution.fileItemId = fid then
          { solution with
            problems := jsSetElem solution.problems i
              (spreadUpdate (jsGetElem solution.problems i) a e) }
        else solution) (some sol) =
        some { sol with
          problems := jsSetElem sol.problems i
            (spreadUpdate (jsGetElem sol.problems i) a e) } := by
      simp [heq]
    rw [hmap]
    refine ⟨_, rfl, ?_, ?_⟩
    · intro hne
      exact absurd heq hne
    · intro _
      refine ⟨rfl, rfl, ?_, ?_, ?_⟩
      · intro hneg
        show jsSetElem sol.problems i
            (spreadUpdate (jsGetElem sol.problems i) a e) = sol.problems
        simp only [jsSetElem, if_pos hneg]
      · intro hpos hlt
        have hset : jsSetElem sol.problems i
              (spreadUpdate (jsGetElem sol.problems i) a e) =
            sol.problems.set i.toNat
              (some (spreadUpdate (jsGetElem sol.problems i) a e)) := by
          simp only [jsSetElem, if_neg (by omega : ¬ i < 0), if_pos hlt]
        refine ⟨hset, ?_⟩
        show (jsSetElem sol.problems i
            (spreadUpdate (jsGetElem sol.problems i) a e)).length =
          sol.problems.length
        rw [hset]
        exact List.length_set _ _ _
      · intro hpos hge
        have hnl : ¬ i < 0 := by omega
        have hnlt : ¬ i.toNat < sol.problems.length := by omega
        have hget : jsGetElem sol.problems i = none := by
          simp only [jsGetElem, if_pos hpos]
          rw [List.getD_eq_getElem?_getD,
            List.getElem?_eq_none (by omega : sol.problems.length ≤ i.toNat)]
          rfl
        have hset : jsSetElem sol.problems i
              (spreadUpdate (jsGetElem sol.problems i) a e) =
            sol.problems ++
              List.replicate (i.toNat - sol.problems.length) none ++
              [some (spreadUpdate none a e)] := by
          simp only [jsSetElem, if_neg hnl, if_neg hnlt, hget]
        have hlen : (sol.problems ++ List.replicate (i.toNat - sol.problems.length)
            (none : Option ProblemSolution)).length = i.toNat := by
          simp only [List.length_append, List.length_replicate]
          omega
        constructor
        · show (jsSetElem sol.problems i
              (spreadUpdate (jsGetElem sol.problems i) a e)).length = i.toNat + 1
          rw [hset]
          simp only [List.length_append, List.length_replicate, List.length_cons,
            List.length_nil]
          omega
        · show (jsSetElem sol.problems i
              (spreadUpdate (jsGetElem sol.problems i) a e)).get? i.toNat =
            some (some (spreadUpdate none a e))
          rw [hset, List.get?_append_right (le_of_eq hlen), hlen, Nat.sub_self]
          rfl
  · have hmap : Option.map (fun solution =>
        if solution.fileItemId = fid then
          { solution with
            problems := jsSetElem solution.problems i
              (spreadUpdate (jsGetElem solution.problems i) a e) }
        else solution) (some sol) = some sol := by
      simp [heq]
    rw [hmap]
    exact ⟨sol, rfl, fun _ => rfl, fun heq2 => absurd heq2 heq⟩

/-- C5 (witness): an in-range call on the sample snapshot replaces the
addressed entry, keeping its problem text and installing the new answer and
explanation. -/
theorem updateProblem_no_validation_witness :
    ((updateProblem c5State "f" 0 "A2" "E2").1.imageSolutions.get? 0).map
        Solution.problems =
      some [some { problem := some "p1", answer := "A2", explanation := "E2" }] := by
  obtain ⟨sol', hget, _, hfid⟩ :=
    updateProblem_no_validation c5State "f" 0 "A2" "E2" 0 sampleSolution rfl
  rw [hget]
  have h2 := ((hfid rfl).2.2.2.1 (by decide) (by decide)).1
  simp only [Option.map_some']
  rw [h2]
  decide

/-- Helper: the `.catch` handler turns every mirror-write outcome into a
resolved promise. -/
theorem catchLog_fst (outcome : Effect → Except String Unit) (siteMsg : String)
    (eff : Effect) : (catchLog outcome siteMsg eff).1 = Except.ok () := by
  simp only [catchLog]
  cases outcome eff <;> rfl

/-- Helper: issuing any list of caught mirror writes leaves no surviving
rejection. -/
theorem runMirrorWrites_ok (effects : List Effect)
    (outcome : Effect → Except String Unit) (siteMsg : String) :
    (runMirrorWrites effects outcome siteMsg).1 = Except.ok () := by
  induction effects with
  | nil => rfl
  | cons eff rest ih =>
    simp only [runMirrorWrites]
    rw [catchLog_fst, ih]

/-- Helper: running any mutation action's result under any persistence
outcome returns the in-memory snapshot the action computed, never an error. -/
theorem runMutation_ok (actionResult : ProblemsState × List Effect)
    (outcome : Effect → Except String Unit) (siteMsg : String) :
    (runMutation actionResult outcome siteMsg).1 = Except.ok actionResult.1 := by
  simp only [runMutation]
  rw [runMirrorWrites_ok]

/-- C6: every listed mutation action, run under an arbitrary mirror-write
outcome, returns its in-memory snapshot unchanged and never surfaces a
persistence failure to the caller — each mirror write carries a `.catch`
handler, so a rejection only produces a log line. -/
theorem mutation_actions_swallow_store_failures (st : ProblemsState)
    (items : List FileItem) (id rid : String) (status : FileStatus)
    (sol : Solution) (fid : String) (i : Int) (a e : String)
    (img : Option String) (n : Int) (outcome : Effect → Except String Unit) :
    ((runMutation (addFileItems st items) outcome
        "Failed to save file item to database:").1 =
      Except.ok (addFileItems st items).1) ∧
    ((runMutation (updateItemStatus st id status) outcome
        "Failed to update file item status in database:").1 =
      Except.ok (updateItemStatus st id status).1) ∧
    ((runMutation (removeImageItem st rid) outcome
        "Failed to delete file item from database:").1 =
      Except.ok (removeImageItem st rid).1) ∧
    ((runMutation (updateProblem st fid i a e) outcome
        "Failed to update solution in database:").1 =
      Except.ok (updateProblem st fid i a e).1) ∧
    ((runMutation (addSolution st sol) outcome
        "Failed to save solution to database:").1 =
      Except.ok (addSolution st sol).1) ∧
    ((runMutation (setSelectedImage st img) outcome
        "Failed to save app state:").1 =
      Except.ok (setSelectedImage st img).1) ∧
    ((runMutation (setSelectedProblem st n) outcome
        "Failed to save app state:").1 =
      Except.ok (setSelectedProblem st n).1) :=
  ⟨runMutation_ok _ _ _, runMutation_ok _ _ _, runMutation_ok _ _ _,
    runMutation_ok _ _ _, runMutation_ok _ _ _, runMutation_ok _ _ _,
    runMutation_ok _ _ _⟩

/-- C7: two back-to-back `addSolution` calls for distinct file item ids both
survive in the final snapshot — the second call recomputes from the snapshot
the first produced, appending rather than overwriting — and each call issues
its own mirror save. -/
theorem addSolution_back_to_back_retains_both (st : ProblemsState)
    (s1 s2 : Solution) (h : s1.fileItemId ≠ s2.fileItemId) :
    ((addSolution (addSolution st s1).1 s2).1.imageSolutions =
      st.imageSolutions ++ [s1, s2]) ∧
    s1 ∈ (addSolution (addSolution st s1).1 s2).1.imageSolutions ∧
    s2 ∈ (addSolution (addSolution st s1).1 s2).1.imageSolutions ∧
    (addSolution st s1).2 = [Effect.saveSolution s1] ∧
    (addSolution (addSolution st s1).1 s2).2 = [Effect.saveSolution s2] := by
  refine ⟨?_, ?_, ?_, rfl, rfl⟩ <;> simp [addSolution]

/-- C7 (witness): starting from the empty snapshot, adding SolutionSets for
file items `"f1"` and `"f2"` back-to-back retains both, in order. -/
theorem addSolution_back_to_back_witness :
    (addSolution (addSolution
      { imageItems := [], imageSolutions := [], selectedImage := none,
        selectedProblem := 0, isWorking := false } solOne).1 solTwo).1.imageSolutions =
      [solOne, solTwo] := by
  have h := addSolution_back_to_back_retains_both
    { imageItems := [], imageSolutions := [], selectedImage := none,
      selectedProblem := 0, isWorking := false } solOne solTwo (by decide)
  simpa using h.1

/-- C9: `setSelectedProblem` stores the raw index; for a SolutionSet with n
problems the viewer's `safeIndex` clamps any stored value at or above n, and
any negative stored value, into the range from 0 to n-1, and yields 0 with a
null active problem when n is 0. -/
theorem selected_problem_clamping (st : ProblemsState) (sol : Solution)
    (v : Int) (hv : v < 0 ∨ (sol.problems.length : Int) ≤ v) :
    (((setSelectedProblem st v).1).selectedProblem = v) ∧
    (0 < sol.problems.length →
      0 ≤ safeIndex ((setSelectedProblem st v).1).selectedProblem
          sol.problems.length ∧
      safeIndex ((setSelectedProblem st v).1).selectedProblem
          sol.problems.length ≤ (sol.problems.length : Int) - 1) ∧
    (sol.problems.length = 0 →
      safeIndex ((setSelectedProblem st v).1).selectedProblem
          sol.problems.length = 0 ∧
      activeProblem sol ((setSelectedProblem st v).1).selectedProblem = none) ∧
    (v < 0 → safeIndex v sol.problems.length = 0) ∧
    ((sol.problems.length : Int) ≤ v → 0 < sol.problems.length →
      safeIndex v sol.problems.length = (sol.problems.length : Int) - 1) := by
  have hsel : ((setSelectedProblem st v).1).selectedProblem = v := rfl
  rw [hsel]
  refine ⟨rfl, ?_, ?_, ?_, ?_⟩
  · intro hn
    constructor <;>
      (simp only [safeIndex, min_def, max_def] <;> split_ifs <;> omega)
  · intro h0
    constructor
    · simp only [safeIndex, min_def, max_def, h0]
      split_ifs <;> omega
    · simp [activeProblem, h0]
  · intro hneg
    simp only [safeIndex, min_def, max_def]
    split_ifs <;> omega
  · intro hge hn
    simp only [safeIndex, min_def, max_def]
    split_ifs <;> omega

/-- C9 (witness): with one problem in the selected SolutionSet, storing
index 5 clamps the effective index to 0 (= n-1) and storing index -3 clamps
it to 0. -/
theorem selected_problem_clamping_witness :
    ((setSelectedProblem c5State 5).1).selectedProblem = 5 ∧
    safeIndex 5 sampleSolution.problems.length = 0 ∧
    safeIndex (-3) sampleSolution.problems.length = 0 := by
  have h := selected_problem_clamping c5State sampleSolution 5
    (Or.inr (by decide))
  have h' := selected_problem_clamping c5State sampleSolution (-3)
    (Or.inl (by decide))
  refine ⟨h.1, ?_, h'.2.2.2.1 (by decide)⟩
  have htop := h.2.2.2.2 (by decide) (by decide)
  rw [htop]
  decide

end SkidHomework
